import Mathlib

/-!
Verification development for the career-assistant engine
(`src/ai_pipeline_simple.py` and `src/ai_career_benchmarking_assistant.py`).

The Python code is shallowly embedded: pandas DataFrame rows of
`career_skills.csv` become lists of `SkillRow`; Python floats become exact
rationals; Python `round(x, n)` (round-half-even) becomes `pyRound1`/`pyRound3`;
Python sets become `Finset String` or deduplicated lists; the external
TF-IDF cosine similarity (scikit-learn) and the numpy/python random draws
of the peer generator are modelled as explicit function parameters.
-/

/-- Python `str.lower()` restricted to ASCII case mapping (all catalog and
user strings in the program are ASCII). -/
def strLower (s : String) : String := ⟨s.data.map Char.toLower⟩

/-- Python `str.strip()`: drop leading and trailing whitespace. -/
def strTrim (s : String) : String :=
  ⟨((s.data.dropWhile (fun c => c.isWhitespace)).reverse.dropWhile
      (fun c => c.isWhitespace)).reverse⟩

/-- Split a character list at every occurrence of `sep`
(Python `str.split(sep)` semantics: keeps empty pieces). -/
def splitChar (sep : Char) : List Char → List (List Char)
  | [] => [[]]
  | c :: cs =>
    match splitChar sep cs with
    | [] => if c = sep then [[], []] else [[c]]
    | h :: t => if c = sep then [] :: h :: t else (c :: h) :: t

/-- Round a rational to the nearest integer, ties to even
(Python 3 `round` on exact values). -/
def bankerRound (x : ℚ) : ℤ :=
  let f : ℤ := ⌊x⌋
  let frac := x - (f : ℚ)
  if frac < 1/2 then f
  else if 1/2 < frac then f + 1
  else if f % 2 = 0 then f else f + 1

/-- Python `round(q, 1)`. -/
def pyRound1 (q : ℚ) : ℚ := (bankerRound (q * 10) : ℚ) / 10

/-- Python `round(q, 3)` (used for the reported semantic similarity). -/
def pyRound3 (q : ℚ) : ℚ := (bankerRound (q * 1000) : ℚ) / 1000

/-- One row of the per-career requirement table: the columns of
`career_skills.csv` rows (and of the soft-skill rows concatenated to them)
that `skill_matching` / `gap_analysis` read. -/
structure SkillRow where
  skill : String
  difficulty : String
  importance : ℚ
  is_required : Bool
  category : String
  weight : ℚ
deriving DecidableEq, Repr

/-- One row of the full catalog (`career_skills.csv`): a career name plus
the requirement data. -/
structure CatalogRow where
  career : String
  req : SkillRow
deriving DecidableEq, Repr

/-- The skill synonym mapping of `_get_skill_synonym_mapping`
(the table in `_expand_skills_with_synonyms` is verbatim identical).
Entry order is the Python dict insertion order. -/
def skillSynonymTable : List (String × List String) := [
  ("python", ["python", "py", "python3", "python3.8", "python3.9", "python3.10"]),
  ("sql", ["sql", "mysql", "postgresql", "sqlite", "tsql", "plsql", "database", "db", "rdbms"]),
  ("java", ["java", "jdk", "jvm", "spring", "maven", "gradle"]),
  ("javascript", ["javascript", "js", "ecmascript", "es6", "es2015", "es2017", "es2020"]),
  ("c++", ["c++", "cpp", "c plus plus", "stl", "boost"]),
  ("c#", ["c#", "csharp", "dotnet", ".net", "asp.net", "entity framework"]),
  ("machine learning", ["machine learning", "ml", "ai", "artificial intelligence", "deep learning", "neural networks", "predictive modeling"]),
  ("deep learning", ["deep learning", "neural networks", "cnn", "rnn", "lstm", "transformer", "bert", "gpt"]),
  ("data science", ["data science", "data scientist", "analytics", "predictive analytics"]),
  ("statistics", ["statistics", "stats", "statistical analysis", "hypothesis testing", "regression", "correlation", "anova"]),
  ("data visualization", ["data visualization", "visualization", "viz", "matplotlib", "seaborn", "plotly", "tableau", "powerbi", "d3.js", "ggplot"]),
  ("visualization", ["visualization", "data visualization", "viz", "charts", "graphs", "dashboards", "data viz"]),
  ("pandas", ["pandas", "pd", "dataframe", "data manipulation", "data analysis"]),
  ("numpy", ["numpy", "np", "numerical computing", "arrays", "matrices"]),
  ("scikit-learn", ["scikit-learn", "sklearn", "machine learning library", "ml library", "scikit"]),
  ("tensorflow", ["tensorflow", "tf", "deep learning framework", "neural networks", "keras"]),
  ("pytorch", ["pytorch", "torch", "deep learning", "ml framework", "neural networks"]),
  ("keras", ["keras", "deep learning", "neural networks", "tensorflow"]),
  ("react", ["react", "reactjs", "react.js", "jsx", "hooks", "redux", "context"]),
  ("angular", ["angular", "angularjs", "ng", "angular 2+", "angular material"]),
  ("vue.js", ["vue", "vue.js", "vuejs", "vue 3", "composition api"]),
  ("node.js", ["node.js", "nodejs", "node", "express", "npm", "yarn"]),
  ("html", ["html", "html5", "markup", "semantic html", "accessibility"]),
  ("css", ["css", "css3", "styling", "responsive design", "flexbox", "grid", "sass", "less"]),
  ("typescript", ["typescript", "ts", "typed javascript", "type safety"]),
  ("flask", ["flask", "python web framework", "microframework", "wsgi"]),
  ("django", ["django", "python web framework", "mvt", "admin panel", "orm"]),
  ("fastapi", ["fastapi", "python web framework", "async", "api", "pydantic"]),
  ("spring boot", ["spring boot", "spring", "java framework", "dependency injection", "aop"]),
  ("spring", ["spring", "spring framework", "spring boot", "java framework"]),
  ("docker", ["docker", "containerization", "containers", "dockerfile", "docker compose"]),
  ("kubernetes", ["kubernetes", "k8s", "container orchestration", "microservices", "deployment"]),
  ("aws", ["aws", "amazon web services", "ec2", "s3", "lambda", "rds", "cloudfront", "route53"]),
  ("azure", ["azure", "microsoft azure", "cloud computing", "vm", "blob storage", "functions"]),
  ("gcp", ["gcp", "google cloud platform", "google cloud", "compute engine", "cloud storage"]),
  ("hadoop", ["hadoop", "apache hadoop", "big data", "mapreduce", "hdfs", "yarn"]),
  ("spark", ["spark", "apache spark", "big data", "distributed computing", "dataframes", "streaming"]),
  ("kafka", ["kafka", "apache kafka", "streaming", "message queue", "event streaming"]),
  ("mongodb", ["mongodb", "nosql", "document database", "mongo", "aggregation"]),
  ("postgresql", ["postgresql", "postgres", "relational database", "rdbms", "acid"]),
  ("mysql", ["mysql", "relational database", "rdbms", "maria db", "innodb"]),
  ("redis", ["redis", "in-memory database", "cache", "key-value store", "data structures"]),
  ("terraform", ["terraform", "infrastructure as code", "iac", "hashicorp", "provisioning"]),
  ("jenkins", ["jenkins", "ci/cd", "continuous integration", "automation", "pipeline"]),
  ("git", ["git", "github", "gitlab", "version control", "vcs", "source control"]),
  ("linux", ["linux", "unix", "ubuntu", "centos", "debian", "red hat", "shell"]),
  ("selenium", ["selenium", "web testing", "automated testing", "browser automation", "webdriver"]),
  ("junit", ["junit", "java testing", "unit testing", "test framework", "tdd"]),
  ("pytest", ["pytest", "python testing", "unit testing", "test framework", "fixtures"]),
  ("figma", ["figma", "ui design", "ux design", "prototyping", "design tools", "collaboration"]),
  ("adobe xd", ["adobe xd", "ux design", "prototyping", "design tools", "wireframing"]),
  ("sketch", ["sketch", "ui design", "mac design tool", "prototyping", "design systems"]),
  ("agile", ["agile", "scrum", "kanban", "project management", "iterative", "adaptive"]),
  ("scrum", ["scrum", "agile methodology", "sprint planning", "standup", "retrospective"]),
  ("jira", ["jira", "project management", "issue tracking", "agile tools", "atlassian"]),
  ("etl", ["etl", "extract transform load", "data pipeline", "data integration", "data processing"]),
  ("data modeling", ["data modeling", "database design", "schema design", "normalization", "erd"]),
  ("api", ["api", "rest api", "graphql", "web services", "endpoints", "microservices"]),
  ("microservices", ["microservices", "microservice architecture", "distributed systems", "service mesh"]),
  ("ci/cd", ["ci/cd", "continuous integration", "continuous deployment", "devops", "automation"]),
  ("mlops", ["mlops", "machine learning operations", "model deployment", "model monitoring", "ml infrastructure"])
]

/-- `_determine_skill_level`: pick a level for a skill without an explicit
user-provided level. -/
def determineSkillLevel (skill : String) (defaultLevel : String) : String :=
  if defaultLevel ≠ "" ∧ strTrim defaultLevel ≠ "" then defaultLevel
  else
    let sl := strLower skill
    if ["python", "java", "javascript", "c++", "c#", "go", "rust", "swift", "kotlin", "sql", "r"].contains sl then "Intermediate"
    else if ["numpy", "pandas", "seaborn", "matplotlib", "scikit-learn", "sklearn"].contains sl then "Intermediate"
    else if ["tensorflow", "pytorch", "kubernetes", "docker", "spark", "hadoop", "kafka", "elasticsearch", "deep learning", "neural networks"].contains sl then "Advanced"
    else if ["git", "jupyter", "excel", "powerpoint", "word", "data visualization", "data cleaning"].contains sl then "Beginner"
    else
      match List.lookup sl [("machine learning", "Intermediate"), ("statistics", "Intermediate"),
        ("feature engineering", "Intermediate"), ("model evaluation", "Intermediate"),
        ("a/b testing", "Intermediate"), ("business intelligence", "Beginner")] with
      | some lvl => lvl
      | none =>
        match List.lookup sl [("react", "Intermediate"), ("angular", "Advanced"),
          ("vue.js", "Intermediate"), ("node.js", "Intermediate"), ("django", "Intermediate"),
          ("flask", "Beginner"), ("spring boot", "Advanced"), ("express.js", "Beginner")] with
        | some lvl => lvl
        | none =>
          if ["aws", "azure", "gcp", "heroku", "digitalocean"].contains sl then "Intermediate"
          else if ["communication", "leadership", "teamwork", "problem solving", "critical thinking", "creativity"].contains sl then "Intermediate"
          else "Beginner"

/-- A user skill after `_parse_user_skills`: name plus proficiency level. -/
structure ParsedSkill where
  skill : String
  level : String
deriving DecidableEq, Repr

/-- The proficiency level alternation of the two parsing regexes,
in source order. -/
def levelWords : List String := ["Beginner", "Intermediate", "Advanced"]

/-- Case-insensitive match of one level word at the head of `cs`
(regex alternation `(Beginner|Intermediate|Advanced)` with `re.IGNORECASE`);
returns the matched text with its original casing. -/
def matchLevelWord (cs : List Char) : Option String :=
  (levelWords.find? (fun w =>
      (cs.take w.length).map Char.toLower == w.data.map Char.toLower)).map
    (fun w => String.mk (cs.take w.length))

/-- Drop leading regex `\s*`. -/
def dropWS (cs : List Char) : List Char := cs.dropWhile (fun c => c.isWhitespace)

/-- Try to match `\s*[-:]\s*(LEVEL)` at the head of `cs`
(the tail of pattern 2 of `_parse_user_skills`). -/
def tryDashSuffix (cs : List Char) : Option String :=
  match dropWS cs with
  | [] => none
  | c :: rest => if c = '-' ∨ c = ':' then matchLevelWord (dropWS rest) else none

/-- Try to match `\s*\(\s*(LEVEL)\s*\)` at the head of `cs`
(the tail of pattern 1 of `_parse_user_skills`). -/
def tryParenSuffix (cs : List Char) : Option String :=
  match dropWS cs with
  | [] => none
  | c :: rest =>
    if c = '(' then
      match matchLevelWord (dropWS rest) with
      | none => none
      | some lvl =>
        match dropWS ((dropWS rest).drop lvl.length) with
        | ')' :: _ => some lvl
        | _ => none
    else none

/-- Scan for the non-greedy group `(.+?)` of the parsing regexes: the group
takes the shortest non-empty prefix (of non-newline characters) after which
`test` matches; returns (group 1, group 2). -/
def scanSkillLevel (test : List Char → Option String) : List Char → List Char → Option (String × String)
  | _, [] => none
  | acc, c :: rest =>
    if c = '\n' then none
    else
      match test rest with
      | some lvl => some (String.mk (acc ++ [c]), lvl)
      | none => scanSkillLevel test (acc ++ [c]) rest

/-- Parse one skill item: pattern 1 `Skill (Level)` first, then pattern 2
`Skill - Level` / `Skill : Level`, else the intelligent default level. -/
def parseSkillEntry (s : String) : ParsedSkill :=
  match scanSkillLevel tryParenSuffix [] s.data with
  | some (name, lvl) => ⟨strTrim name, strTrim lvl⟩
  | none =>
    match scanSkillLevel tryDashSuffix [] s.data with
    | some (name, lvl) => ⟨strTrim name, strTrim lvl⟩
    | none => ⟨s, determineSkillLevel s ""⟩

/-- `_parse_user_skills`: split the raw input on newlines (if any) or commas,
strip the pieces, drop the empty ones and parse each. -/
def parseUserSkills (input : String) : List ParsedSkill :=
  let pieces := if input.data.contains '\n'
    then splitChar '\n' input.data else splitChar ',' input.data
  let items := (pieces.map (fun cs => strTrim (String.mk cs))).filter (fun s => s ≠ "")
  items.map parseSkillEntry

/-- Auxiliary scan of `_get_skill_synonyms`: first table entry whose
canonical name equals the lowered skill, or whose synonym list contains it
(the Python loop breaks at the first hit). -/
def synonymsLookupFor (sl : String) : List (String × List String) → Option (List String)
  | [] => none
  | (canon, syns) :: rest =>
    if sl == strLower canon then some syns
    else if (syns.map strLower).contains sl then some syns
    else synonymsLookupFor sl rest

/-- `_get_skill_synonyms`: the skill itself plus the synonym family it
belongs to, deduplicated (Python builds `list(set(...))`; only membership
is used downstream, so the dedup order is irrelevant). -/
def getSkillSynonyms (skillName : String) : List String :=
  match synonymsLookupFor (strLower skillName) skillSynonymTable with
  | some syns => (skillName :: syns).dedup
  | none => [skillName].dedup

example : parseUserSkills "SQL - Intermediate" = [⟨"SQL", "Intermediate"⟩] := by decide
example : parseUserSkills "Python (Advanced), SQL - Intermediate" =
    [⟨"Python", "Advanced"⟩, ⟨"SQL", "Intermediate"⟩] := by decide
example : parseSkillEntry "SQL - Intermediate" = ⟨"SQL", "Intermediate"⟩ := by decide
example : parseSkillEntry "NumPy" = ⟨"NumPy", "Intermediate"⟩ := by decide
example : determineSkillLevel "SQL - Intermediate" "" = "Beginner" := by decide
example : getSkillSynonyms "SQL" =
    ["SQL", "sql", "mysql", "postgresql", "sqlite", "tsql", "plsql", "database", "db", "rdbms"] := by decide
example : getSkillSynonyms "SQL - Intermediate" = ["SQL - Intermediate"] := by decide

/-- Is `a` a contiguous sublist of `b`? -/
def isSubChars (a : List Char) : List Char → Bool
  | [] => a.isEmpty
  | c :: cs => a.isPrefixOf (c :: cs) || isSubChars a cs

/-- Python substring test `a in b` for strings. -/
def strInfix (a b : String) : Bool := isSubChars a.data b.data

/-- Append each element of `xs` to `acc` unless already present
(the `if x not in expanded: expanded.append(x)` idiom). -/
def addIfNew (acc : List String) (xs : List String) : List String :=
  xs.foldl (fun a x => if a.contains x then a else a ++ [x]) acc

/-- One iteration of the outer loop of `_expand_skills_with_synonyms` for a
single user skill: direct dict lookup, then the containment-based fuzzy pass
over every table entry, then the symmetric synonym-substring pass. -/
def expandStep (acc : List String) (skill : String) : List String :=
  let sl := strLower skill
  let acc1 := match List.lookup sl skillSynonymTable with
    | some syns => addIfNew acc syns
    | none => acc
  skillSynonymTable.foldl (fun a entry =>
    let a1 := if strInfix sl entry.1 ∨ strInfix entry.1 sl then addIfNew a entry.2 else a
    entry.2.foldl (fun b syn =>
      if strInfix sl syn ∨ strInfix syn sl then addIfNew b entry.2 else b) a1) acc1

/-- `_expand_skills_with_synonyms`: starts from a copy of the user skills and
accumulates synonym families triggered by each original skill. -/
def expandSkillsWithSynonyms (userSkills : List String) : List String :=
  userSkills.foldl expandStep userSkills

set_option maxRecDepth 40000 in
example : "python3" ∈ expandSkillsWithSynonyms ["Python"] := by decide

/-- The output record of `_calculate_weighted_matching` (the fields the
claims read; the per-category matched/missing breakdown lists are carried by
the same filters). -/
structure WeightedAnalysis where
  exact_matches : Finset String
  required_matches : Finset String
  weighted_match_percentage : ℚ
  required_match_percentage : ℚ
  category_scores : List (String × ℚ)
deriving DecidableEq

/-- The four skill categories tracked by the matcher. -/
def skillCategories : List String := ["core", "intermediate", "supporting", "soft"]

/-- `_calculate_weighted_matching`: weighted and required coverage of the
lowercased user skill set against one career requirement table.
`requiredRows` is passed separately because the caller passes the
pre-filtered required DataFrame (`skill_matching` line 100). -/
def calculateWeightedMatching (userSet : List String) (careerRows requiredRows : List SkillRow) :
    WeightedAnalysis :=
  let matched := careerRows.filter (fun r => userSet.contains (strLower r.skill))
  let exact := (matched.map (fun r => strLower r.skill)).toFinset
  let reqMatched := ((careerRows.filter
      (fun r => userSet.contains (strLower r.skill) && r.is_required)).map
      (fun r => strLower r.skill)).toFinset
  let totalW := (matched.map (fun r => r.weight * 10)).sum
  let totalPossible := (careerRows.map (fun r => r.weight * 10)).sum
  { exact_matches := exact
    required_matches := reqMatched
    weighted_match_percentage := if totalPossible > 0 then totalW / totalPossible * 100 else 0
    required_match_percentage :=
      if requiredRows.length > 0 then (reqMatched.card : ℚ) / (requiredRows.length : ℚ) * 100 else 0
    category_scores := skillCategories.map (fun c =>
      let tot := (careerRows.filter (fun r => r.category == c)).length
      let m := (matched.filter (fun r => r.category == c)).length
      (c, if tot > 0 then (m : ℚ) / (tot : ℚ) * 100 else 0)) }

/-- The base score of the composite scorer
(`skill_matching` lines 119-123). -/
def smBase (wa : WeightedAnalysis) (sem : ℚ) : ℚ :=
  wa.weighted_match_percentage * 0.6 + wa.required_match_percentage * 0.25 + sem * 100 * 0.15

/-- The complementary-skills bonus (`skill_matching` lines 138-140): Python
compares `len(exact_matches)` with `len(required_matches) * 0.5`, where
`required_matches` is the set of MATCHED required skills. -/
def smComplementaryBonus (wa : WeightedAnalysis) : ℚ :=
  if (wa.exact_matches.card : ℚ) ≥ (wa.required_matches.card : ℚ) * 0.5 then 5 else 0

/-- The bonus score of the composite scorer
(`skill_matching` lines 125-144). -/
def smBonus (wa : WeightedAnalysis) (sem : ℚ) : ℚ :=
  (if wa.required_matches ≠ ∅ then
    (if wa.required_match_percentage ≥ 80 then 15
     else if wa.required_match_percentage ≥ 60 then 10
     else if wa.required_match_percentage ≥ 40 then 5
     else 0)
   else 0)
  + smComplementaryBonus wa
  + (if sem > 0.3 then 5 else 0)

/-- `final_score = min(100, base_score + bonus_score)` before the safety
caps (`skill_matching` line 147). -/
def smPreCap (wa : WeightedAnalysis) (sem : ℚ) : ℚ :=
  min 100 (smBase wa sem + smBonus wa sem)

/-- The three sequential safety caps (`skill_matching` lines 149-157),
each testing the value left by the previous one. -/
def applySafetyCaps (totalSkills : ℕ) (rmp f : ℚ) : ℚ :=
  let f1 := if totalSkills < 8 ∧ f > 75 then min 75 f else f
  let f2 := if f1 > 90 ∧ rmp < 80 then min 85 f1 else f1
  if f2 > 70 ∧ rmp < 60 then min 65 f2 else f2

/-- The fully capped final score of one career. -/
def smFinal (wa : WeightedAnalysis) (sem : ℚ) (totalSkills : ℕ) : ℚ :=
  applySafetyCaps totalSkills wa.required_match_percentage (smPreCap wa sem)

/-- One element of the list returned by `skill_matching`
(the scalar fields of the result dict). -/
structure MatchEntry where
  career : String
  match_percentage : ℚ
  base_score : ℚ
  bonus_score : ℚ
  semantic_similarity : ℚ
  weighted_match_percentage : ℚ
  required_match_percentage : ℚ
  category_scores : List (String × ℚ)
  total_career_skills : ℕ
  total_required_skills : ℕ
  skills_covered : ℕ
deriving DecidableEq, Repr

/-- The per-career body of the `skill_matching` loop. -/
def mkMatchEntry (career : String) (careerRows : List SkillRow) (sem : ℚ)
    (userSet : List String) : MatchEntry :=
  let requiredRows := careerRows.filter (fun r => r.is_required)
  let wa := calculateWeightedMatching userSet careerRows requiredRows
  { career := career
    match_percentage := pyRound1 (smFinal wa sem careerRows.length)
    base_score := pyRound1 (smBase wa sem)
    bonus_score := pyRound1 (smBonus wa sem)
    semantic_similarity := pyRound3 sem
    weighted_match_percentage := pyRound1 wa.weighted_match_percentage
    required_match_percentage := pyRound1 wa.required_match_percentage
    category_scores := wa.category_scores
    total_career_skills := careerRows.length
    total_required_skills := requiredRows.length
    skills_covered := wa.exact_matches.card }

/-- First-occurrence deduplication (pandas `Series.unique` order). -/
def uniqueFirstAux (seen : List String) : List String → List String
  | [] => []
  | x :: xs => if seen.contains x then uniqueFirstAux seen xs
               else x :: uniqueFirstAux (x :: seen) xs

/-- First-occurrence deduplication of a string list. -/
def uniqueFirst (l : List String) : List String := uniqueFirstAux [] l

/-- `skill_matching`: empty input short-circuits to an empty list; otherwise
every career of the catalog is scored against the synonym-expanded,
lowercased user skill set and the matches are returned sorted by
`match_percentage` descending (Python stable sort), truncated to `topN`.
The TF-IDF cosine similarity of career profiles is external (scikit-learn)
and is passed as the function `sem`. -/
def skillMatching (catalog : List CatalogRow) (sem : String → ℚ)
    (userSkills : List String) (topN : ℕ) : List MatchEntry :=
  if userSkills.isEmpty then []
  else
    let userSet := (expandSkillsWithSynonyms userSkills).map strLower
    let careers := uniqueFirst (catalog.map (fun r => r.career))
    let entries := careers.filterMap (fun c =>
      let rows := (catalog.filter (fun r => r.career == c)).map (fun r => r.req)
      if rows.isEmpty then none
      else some (mkMatchEntry c rows (sem c) userSet))
    (entries.mergeSort (fun a b => a.match_percentage ≥ b.match_percentage)).take topN

/-- The per-career soft-skill tables of `_get_soft_skills_for_career`
(fields: skill, difficulty, importance, is_required, category, weight). -/
def softSkillsMapping : List (String × List SkillRow) := [
  ("Data Scientist", [
    ⟨"Communication", "Intermediate", 8, true, "soft", (0.8 : ℚ)⟩,
    ⟨"Problem Solving", "Intermediate", 9, true, "soft", (0.9 : ℚ)⟩,
    ⟨"Critical Thinking", "Intermediate", 8, true, "soft", (0.8 : ℚ)⟩,
    ⟨"Teamwork", "Intermediate", 7, false, "soft", (0.7 : ℚ)⟩,
    ⟨"Leadership", "Intermediate", 6, false, "soft", (0.6 : ℚ)⟩]),
  ("Data Engineer", [
    ⟨"Communication", "Intermediate", 7, true, "soft", (0.7 : ℚ)⟩,
    ⟨"Problem Solving", "Advanced", 8, true, "soft", (0.8 : ℚ)⟩,
    ⟨"Attention to Detail", "Advanced", 9, true, "soft", (0.9 : ℚ)⟩,
    ⟨"Teamwork", "Intermediate", 6, false, "soft", (0.6 : ℚ)⟩]),
  ("Machine Learning Engineer", [
    ⟨"Communication", "Intermediate", 7, true, "soft", (0.7 : ℚ)⟩,
    ⟨"Problem Solving", "Advanced", 9, true, "soft", (0.9 : ℚ)⟩,
    ⟨"Research Skills", "Advanced", 8, true, "soft", (0.8 : ℚ)⟩,
    ⟨"Creativity", "Intermediate", 6, false, "soft", (0.6 : ℚ)⟩]),
  ("Software Engineer", [
    ⟨"Communication", "Intermediate", 8, true, "soft", (0.8 : ℚ)⟩,
    ⟨"Problem Solving", "Advanced", 9, true, "soft", (0.9 : ℚ)⟩,
    ⟨"Teamwork", "Intermediate", 7, true, "soft", (0.7 : ℚ)⟩,
    ⟨"Time Management", "Intermediate", 6, false, "soft", (0.6 : ℚ)⟩]),
  ("Frontend Developer", [
    ⟨"Communication", "Intermediate", 8, true, "soft", (0.8 : ℚ)⟩,
    ⟨"Problem Solving", "Intermediate", 7, true, "soft", (0.7 : ℚ)⟩,
    ⟨"Creativity", "Intermediate", 7, false, "soft", (0.7 : ℚ)⟩,
    ⟨"User Empathy", "Intermediate", 6, false, "soft", (0.6 : ℚ)⟩]),
  ("Backend Developer", [
    ⟨"Communication", "Intermediate", 7, true, "soft", (0.7 : ℚ)⟩,
    ⟨"Problem Solving", "Advanced", 8, true, "soft", (0.8 : ℚ)⟩,
    ⟨"System Thinking", "Advanced", 7, false, "soft", (0.7 : ℚ)⟩]),
  ("DevOps Engineer", [
    ⟨"Communication", "Intermediate", 7, true, "soft", (0.7 : ℚ)⟩,
    ⟨"Problem Solving", "Advanced", 8, true, "soft", (0.8 : ℚ)⟩,
    ⟨"Incident Response", "Advanced", 7, false, "soft", (0.7 : ℚ)⟩]),
  ("Product Manager", [
    ⟨"Communication", "Advanced", 10, true, "soft", (1.0 : ℚ)⟩,
    ⟨"Leadership", "Advanced", 9, true, "soft", (0.9 : ℚ)⟩,
    ⟨"Problem Solving", "Advanced", 9, true, "soft", (0.9 : ℚ)⟩,
    ⟨"Strategic Thinking", "Advanced", 8, true, "soft", (0.8 : ℚ)⟩])
]

/-- The default soft-skill table used for careers without a specific
mapping. -/
def defaultSoftSkills : List SkillRow := [
  ⟨"Communication", "Intermediate", 8, true, "soft", (0.8 : ℚ)⟩,
  ⟨"Problem Solving", "Intermediate", 9, true, "soft", (0.9 : ℚ)⟩,
  ⟨"Teamwork", "Intermediate", 7, false, "soft", (0.7 : ℚ)⟩,
  ⟨"Leadership", "Intermediate", 6, false, "soft", (0.6 : ℚ)⟩,
  ⟨"Critical Thinking", "Intermediate", 8, true, "soft", (0.8 : ℚ)⟩
]

/-- `_get_soft_skills_for_career`: the mapped table, or the default. -/
def softSkillsForCareer (career : String) : List SkillRow :=
  match List.lookup career softSkillsMapping with
  | some rows => rows
  | none => defaultSoftSkills

/-- The skill-to-info mapping built by `gap_analysis` lines 497-504: every
lowercased synonym of every parsed user skill maps to that skill's parsed
info; later parsed skills overwrite earlier ones on key collisions, so the
lookup below searches the reversed association list. -/
def skillMappingOf (parsed : List ParsedSkill) : List (String × ParsedSkill) :=
  parsed.flatMap (fun p => (getSkillSynonyms p.skill).map (fun syn => (strLower syn, p)))

/-- Python dict lookup (last write wins). -/
def mappingLookup (m : List (String × ParsedSkill)) (k : String) : Option ParsedSkill :=
  (m.reverse.find? (fun e => e.1 == k)).map (fun e => e.2)

/-- One entry of the `user_has` list (`gap_analysis` lines 529-535).
The reported difficulty is the user info's level: the mapping values are
always non-empty dicts with a `level` key, so the `isinstance` fallback and
the `.get` default of the source are unreachable. -/
structure UserHasEntry where
  skill : String
  difficulty : String
  importance : ℚ
  is_required : Bool
  category : String
deriving DecidableEq, Repr

/-- One entry of the `required_missing` / `optional_missing` lists. -/
structure MissingEntry where
  skill : String
  difficulty : String
  importance : ℚ
  category : String
deriving DecidableEq, Repr

/-- The `user_has` entry produced for requirement row `r`, when the user has
the skill (`gap_analysis` lines 517-535). -/
def gapEntry (m : List (String × ParsedSkill)) (r : SkillRow) : Option UserHasEntry :=
  (mappingLookup m (strLower r.skill)).map (fun info =>
    UserHasEntry.mk r.skill info.level r.importance r.is_required r.category)

/-- The result dict of `gap_analysis`. -/
structure GapResult where
  target_career : String
  completion_percentage : ℚ
  required_completion : ℚ
  optional_coverage : ℚ
  user_has : List UserHasEntry
  required_missing : List MissingEntry
  optional_missing : List MissingEntry
  total_skills_needed : ℕ
  skills_covered : ℕ
  total_required : ℕ
  total_optional : ℕ
  required_covered : ℕ
  optional_covered : ℕ
  total_required_importance : ℚ
  user_required_importance : ℚ
  required_missing_count : ℤ
  optional_missing_count : ℤ
deriving DecidableEq

/-- The body of `gap_analysis` after the career-existence check, applied to
the augmented requirement table and the parsed user skills. -/
def gapAnalysisCore (target : String) (careerReqs : List SkillRow)
    (parsed : List ParsedSkill) : GapResult :=
  let mapping := skillMappingOf parsed
  let requiredRows := careerReqs.filter (fun r => r.is_required)
  let optionalRows := careerReqs.filter (fun r => !r.is_required)
  let userHas := careerReqs.filterMap (gapEntry mapping)
  let reqMissing := (careerReqs.filter (fun r =>
      (mappingLookup mapping (strLower r.skill)).isNone && r.is_required)).map
      (fun r => MissingEntry.mk r.skill r.difficulty r.importance r.category)
  let optMissing := (careerReqs.filter (fun r =>
      (mappingLookup mapping (strLower r.skill)).isNone && !r.is_required)).map
      (fun r => MissingEntry.mk r.skill r.difficulty r.importance r.category)
  let totalRequiredImportance := (requiredRows.map (fun r => r.importance)).sum
  let userRequiredImportance :=
    ((userHas.filter (fun s => s.is_required)).map (fun s => s.importance)).sum
  let completion := if totalRequiredImportance > 0
    then userRequiredImportance / totalRequiredImportance * 100 else 0
  let totalRequired := requiredRows.length
  let totalOptional := optionalRows.length
  let requiredCovered := (userHas.filter (fun s => s.is_required)).length
  let optionalCovered := (userHas.filter (fun s => !s.is_required)).length
  let requiredCompletion := if totalRequired > 0
    then (requiredCovered : ℚ) / (totalRequired : ℚ) * 100 else 0
  let optionalCoverage := if totalOptional > 0
    then (optionalCovered : ℚ) / (totalOptional : ℚ) * 100 else 0
  { target_career := target
    completion_percentage := pyRound1 completion
    required_completion := pyRound1 requiredCompletion
    optional_coverage := pyRound1 optionalCoverage
    user_has := userHas
    required_missing := reqMissing.mergeSort (fun a b => a.importance ≥ b.importance)
    optional_missing := optMissing.mergeSort (fun a b => a.importance ≥ b.importance)
    total_skills_needed := careerReqs.length
    skills_covered := userHas.length
    total_required := totalRequired
    total_optional := totalOptional
    required_covered := requiredCovered
    optional_covered := optionalCovered
    total_required_importance := totalRequiredImportance
    user_required_importance := userRequiredImportance
    required_missing_count := max 0 ((totalRequired : ℤ) - (requiredCovered : ℤ))
    optional_missing_count := max 0 ((totalOptional : ℤ) - (optionalCovered : ℤ)) }

/-- The requirement table analyzed for a target career: the catalog rows of
that career concatenated with its soft-skill table
(`gap_analysis` lines 482-488). -/
def careerReqsFor (catalog : List CatalogRow) (target : String) : List SkillRow :=
  (catalog.filter (fun r => r.career == target)).map (fun r => r.req)
    ++ softSkillsForCareer target

/-- The two input forms of `gap_analysis` (lines 491-495): a raw string is
parsed by `_parse_user_skills`; a list is converted with the intelligent
default level for each raw item. -/
def parsedSkillsOfInput (input : String ⊕ List String) : List ParsedSkill :=
  match input with
  | Sum.inl s => parseUserSkills s
  | Sum.inr l => l.map (fun sk => ParsedSkill.mk sk (determineSkillLevel sk ""))

/-- Whether a requirement row is matched by the user input, as tested by
`gap_analysis` line 519. -/
def gapMatched (input : String ⊕ List String) (r : SkillRow) : Bool :=
  (mappingLookup (skillMappingOf (parsedSkillsOfInput input)) (strLower r.skill)).isSome

/-- `gap_analysis`: career-existence check, then the core analysis over the
augmented requirement table. -/
def gapAnalysis (catalog : List CatalogRow) (target : String)
    (input : String ⊕ List String) : Except String GapResult :=
  if (catalog.map (fun r => r.career)).contains target then
    Except.ok (gapAnalysisCore target (careerReqsFor catalog target) (parsedSkillsOfInput input))
  else Except.error "Career not found"

/-- One candidate (experience, education, salary) tuple sampled inside the
retry loop of `_generate_realistic_peer_group`. The numpy normal/choice and
`random.randint` sampling plus clamping is external randomness, so the
candidate stream is modelled as an abstract function of the attempt index. -/
structure PeerCand where
  experience : ℤ
  education : String
  salary : ℤ
deriving DecidableEq, Repr

/-- The near-duplicate key: `(experience, education, salary // 5000)`
(Python floor division groups salary into 5000-dollar buckets). -/
def peerKey (c : PeerCand) : ℤ × String × ℤ := (c.experience, c.education, c.salary.fdiv 5000)

/-- The `while attempts < 50` retry loop of `_generate_realistic_peer_group`
(lines 89-117): each iteration draws a candidate; a fresh key is accepted
(and recorded, flag `true`); after 50 duplicate draws the loop condition
fails and the candidate of the last iteration is used without being
recorded (flag `false`). -/
def peerLoop (used : List (ℤ × String × ℤ)) (draws : ℕ → PeerCand) (attempts : ℕ) :
    PeerCand × Bool :=
  if attempts < 50 then
    let c := draws attempts
    if used.contains (peerKey c) then peerLoop used draws (attempts + 1)
    else (c, true)
  else (draws 49, false)
termination_by 50 - attempts
decreasing_by omega

/-- The career profile data used by `_generate_peer_skills`. -/
structure CareerGenProfile where
  core_skills : List String
  emerging_skills : List String
  soft_skills : List String

/-- `_generate_peer_skills`: independent inclusion draws for core, emerging
and soft skills with experience-dependent probabilities, topping up from
unpicked core skills when fewer than 4 skills were drawn. `coins k` is the
`random.random()` value of the k-th draw. -/
def generatePeerSkills (profile : CareerGenProfile) (experience : ℤ) (coins : ℕ → ℚ) :
    List String :=
  let nc := profile.core_skills.length
  let ne := profile.emerging_skills.length
  let core := (profile.core_skills.enum.filter (fun p =>
      coins p.1 < 0.7 + min ((experience : ℚ) * 0.05) 0.25)).map (fun p => p.2)
  let emerging := (profile.emerging_skills.enum.filter (fun p =>
      coins (nc + p.1) < max 0.1 (min ((experience : ℚ) * 0.08) 0.75))).map (fun p => p.2)
  let soft := (profile.soft_skills.enum.filter (fun p =>
      coins (nc + ne + p.1) < 0.6)).map (fun p => p.2)
  let peer := core ++ emerging ++ soft
  if peer.length < 4
  then peer ++ (profile.core_skills.filter (fun s => !peer.contains s)).take 2
  else peer

/-- One generated peer record. -/
structure PeerRec where
  experience_years : ℤ
  education : String
  salary : ℤ
  skills : List String
  skill_count : ℕ
deriving DecidableEq, Repr

/-- One iteration of the `for i in range(sample_size)` loop of
`_generate_realistic_peer_group`: run the retry loop against the used-key
set, record the key when it was fresh, draw the peer skills and append the
peer record. -/
def peerGroupStep (profile : CareerGenProfile) (draws : ℕ → ℕ → PeerCand)
    (coins : ℕ → ℕ → ℚ) (st : List (ℤ × String × ℤ) × List PeerRec) (i : ℕ) :
    List (ℤ × String × ℤ) × List PeerRec :=
  let r := peerLoop st.1 (draws i) 0
  let used2 := if r.2 then peerKey r.1 :: st.1 else st.1
  let skills := generatePeerSkills profile r.1.experience (coins i)
  (used2, st.2 ++ [PeerRec.mk r.1.experience r.1.education r.1.salary skills skills.length])

/-- `_generate_realistic_peer_group`: one retry loop per sample index,
threading the set of used near-duplicate keys; `draws i` is the candidate
stream of peer `i`, `coins i` its skill-draw stream. -/
def generatePeerGroup (profile : CareerGenProfile) (draws : ℕ → ℕ → PeerCand)
    (coins : ℕ → ℕ → ℚ) (sampleSize : ℕ) : List PeerRec :=
  ((List.range sampleSize).foldl (peerGroupStep profile draws coins) ([], [])).2

/- ===================== Helper lemmas ===================== -/

lemma required_matches_subset_exact (userSet : List String) (rows reqRows : List SkillRow) :
    (calculateWeightedMatching userSet rows reqRows).required_matches ⊆
      (calculateWeightedMatching userSet rows reqRows).exact_matches := by
  intro x hx
  simp only [calculateWeightedMatching, List.mem_toFinset, List.mem_map] at hx ⊢
  obtain ⟨r, hr, rfl⟩ := hx
  rw [List.mem_filter, Bool.and_eq_true] at hr
  exact ⟨r, List.mem_filter.mpr ⟨hr.1, hr.2.1⟩, rfl⟩

/- ===================== C2 ===================== -/

/-- C2: for every user skill set and career requirement table, the composite
scorer base equals weighted_match% × 0.6 + required_match% × 0.25 +
semantic_similarity × 100 × 0.15 (the reported `base_score` being its
one-decimal rounding), and the pre-cap final equals min(100, base + bonus). -/
theorem composite_base_and_precap_formula (career : String) (careerRows : List SkillRow)
    (sem : ℚ) (userSet : List String) :
    (mkMatchEntry career careerRows sem userSet).base_score =
      pyRound1 ((calculateWeightedMatching userSet careerRows
          (careerRows.filter (fun r => r.is_required))).weighted_match_percentage * 0.6
        + (calculateWeightedMatching userSet careerRows
          (careerRows.filter (fun r => r.is_required))).required_match_percentage * 0.25
        + sem * 100 * 0.15)
    ∧ smPreCap (calculateWeightedMatching userSet careerRows
          (careerRows.filter (fun r => r.is_required))) sem =
        min 100 (smBase (calculateWeightedMatching userSet careerRows
            (careerRows.filter (fun r => r.is_required))) sem
          + smBonus (calculateWeightedMatching userSet careerRows
            (careerRows.filter (fun r => r.is_required))) sem) :=
  ⟨rfl, rfl⟩

/- ===================== C3 ===================== -/

/-- C3: the sequential application of the three safety caps produces exactly
the minimum of the uncapped final score and every cap value whose condition
holds of the ORIGINAL uncapped score: the chained and the order-independent
readings coincide on all inputs. -/
theorem safety_caps_sequential_eq_min_of_original (total : ℕ) (rmp f0 : ℚ) :
    applySafetyCaps total rmp f0 =
      min (min (min f0 (if total < 8 ∧ f0 > 75 then 75 else f0))
        (if f0 > 90 ∧ rmp < 80 then 85 else f0))
        (if f0 > 70 ∧ rmp < 60 then 65 else f0) := by
  simp only [applySafetyCaps]
  by_cases h1 : total < 8 ∧ f0 > 75 <;> by_cases h2 : f0 > 90 ∧ rmp < 80 <;>
    by_cases h3 : f0 > 70 ∧ rmp < 60
  · have h75 : (75:ℚ) ≤ f0 := le_of_lt h1.2
    rw [if_pos h1, min_eq_left h75]
    rw [if_neg (show ¬((75:ℚ) > 90 ∧ rmp < 80) by rintro ⟨hh, -⟩; norm_num at hh)]
    rw [if_pos (show (75:ℚ) > 70 ∧ rmp < 60 from ⟨by norm_num, h3.2⟩)]
    rw [if_pos h1, if_pos h2, if_pos h3, min_eq_right h75]
    norm_num [min_def]
  · have h75 : (75:ℚ) ≤ f0 := le_of_lt h1.2
    have hr : ¬ rmp < 60 := fun hc => h3 ⟨by linarith [h1.2], hc⟩
    rw [if_pos h1, min_eq_left h75]
    rw [if_neg (show ¬((75:ℚ) > 90 ∧ rmp < 80) by rintro ⟨hh, -⟩; norm_num at hh)]
    rw [if_neg (show ¬((75:ℚ) > 70 ∧ rmp < 60) by rintro ⟨-, hc⟩; exact hr hc)]
    rw [if_pos h1, if_pos h2, if_neg h3, min_eq_right h75]
    rw [min_eq_left (show (75:ℚ) ≤ 85 by norm_num), min_eq_left h75]
  · have h75 : (75:ℚ) ≤ f0 := le_of_lt h1.2
    rw [if_pos h1, min_eq_left h75]
    rw [if_neg (show ¬((75:ℚ) > 90 ∧ rmp < 80) by rintro ⟨hh, -⟩; norm_num at hh)]
    rw [if_pos (show (75:ℚ) > 70 ∧ rmp < 60 from ⟨by norm_num, h3.2⟩)]
    rw [if_pos h1, if_neg h2, if_pos h3, min_eq_right h75, min_eq_left h75]
    norm_num [min_def]
  · have h75 : (75:ℚ) ≤ f0 := le_of_lt h1.2
    have hr : ¬ rmp < 60 := fun hc => h3 ⟨by linarith [h1.2], hc⟩
    rw [if_pos h1, min_eq_left h75]
    rw [if_neg (show ¬((75:ℚ) > 90 ∧ rmp < 80) by rintro ⟨hh, -⟩; norm_num at hh)]
    rw [if_neg (show ¬((75:ℚ) > 70 ∧ rmp < 60) by rintro ⟨-, hc⟩; exact hr hc)]
    rw [if_pos h1, if_neg h2, if_neg h3, min_eq_right h75, min_eq_left h75, min_eq_left h75]
  · have h85 : (85:ℚ) ≤ f0 := by linarith [h2.1]
    rw [if_neg h1, if_pos h2, min_eq_left h85]
    rw [if_pos (show (85:ℚ) > 70 ∧ rmp < 60 from ⟨by norm_num, h3.2⟩)]
    rw [if_neg h1, if_pos h2, if_pos h3, min_self, min_eq_right h85]
    norm_num [min_def]
  · have h85 : (85:ℚ) ≤ f0 := by linarith [h2.1]
    have hr : ¬ rmp < 60 := fun hc => h3 ⟨by linarith [h2.1], hc⟩
    rw [if_neg h1, if_pos h2, min_eq_left h85]
    rw [if_neg (show ¬((85:ℚ) > 70 ∧ rmp < 60) by rintro ⟨-, hc⟩; exact hr hc)]
    rw [if_neg h1, if_pos h2, if_neg h3, min_self, min_eq_right h85, min_eq_left h85]
  · rw [if_neg h1, if_neg h2, if_pos h3]
    rw [if_neg h1, if_neg h2, if_pos h3, min_self, min_self]
    exact min_comm _ _
  · rw [if_neg h1, if_neg h2, if_neg h3]
    rw [if_neg h1, if_neg h2, if_neg h3, min_self, min_self, min_self]

/- ===================== C4 ===================== -/

/-- A five-skill career table: four required skills the user lacks and one
optional skill the user has. -/
def rowsC4 : List SkillRow := [
  ⟨"a", "Beginner", 9, true, "core", 1⟩,
  ⟨"b", "Beginner", 9, true, "core", 1⟩,
  ⟨"c", "Beginner", 9, true, "core", 1⟩,
  ⟨"d", "Beginner", 9, true, "core", 1⟩,
  ⟨"e", "Beginner", 5, false, "supporting", 1⟩]

/-- C4 counterexample: with one exact match and four unmatched required
skills, the code adds the 5-point complementary bonus (it compares against
0.5 × |matched required| = 0), although 1 < 0.5 × 4, so the claimed
condition "exact matches ≥ 0.5 × total required count" is false. -/
theorem complementary_bonus_claim_false :
    smComplementaryBonus (calculateWeightedMatching ["e"] rowsC4
        (rowsC4.filter (fun r => r.is_required))) = 5
    ∧ ¬ (((calculateWeightedMatching ["e"] rowsC4
          (rowsC4.filter (fun r => r.is_required))).exact_matches.card : ℚ)
        ≥ ((rowsC4.filter (fun r => r.is_required)).length : ℚ) * 0.5) := by
  have hex : (calculateWeightedMatching ["e"] rowsC4
      (rowsC4.filter (fun r => r.is_required))).exact_matches.card = 1 := by decide
  have hreq : (calculateWeightedMatching ["e"] rowsC4
      (rowsC4.filter (fun r => r.is_required))).required_matches.card = 0 := by decide
  have hlen : (rowsC4.filter (fun r => r.is_required)).length = 4 := by decide
  constructor
  · rw [smComplementaryBonus, hex, hreq, if_pos (by norm_num)]
  · rw [hex, hlen]
    norm_num

/-- C4 (amended): the 5-point complementary bonus is added iff the number of
exact matches is at least 0.5 × the number of MATCHED required skills
(`len(required_matches)`), not the career total required count — and since
the matched required skills are a subset of the exact matches, this
condition always holds, so the bonus is added unconditionally. -/
theorem complementary_bonus_always_added (userSet : List String) (rows : List SkillRow) :
    smComplementaryBonus (calculateWeightedMatching userSet rows
      (rows.filter (fun r => r.is_required))) = 5 := by
  have hsub := required_matches_subset_exact userSet rows (rows.filter (fun r => r.is_required))
  have hcard := Finset.card_le_card hsub
  rw [smComplementaryBonus, if_pos]
  have h0 : (0:ℚ) ≤ ((calculateWeightedMatching userSet rows
      (rows.filter (fun r => r.is_required))).required_matches.card : ℚ) := by positivity
  have hc : ((calculateWeightedMatching userSet rows
      (rows.filter (fun r => r.is_required))).required_matches.card : ℚ)
      ≤ ((calculateWeightedMatching userSet rows
      (rows.filter (fun r => r.is_required))).exact_matches.card : ℚ) := by
    exact_mod_cast hcard
  linarith

/- ===================== bounds lemmas for C1 ===================== -/

lemma bankerRound_nonneg (x : ℚ) (hx : 0 ≤ x) : 0 ≤ bankerRound x := by
  have hf : (0:ℤ) ≤ ⌊x⌋ := Int.floor_nonneg.mpr hx
  simp only [bankerRound]
  split_ifs <;> omega

lemma bankerRound_le (x : ℚ) (N : ℤ) (h : x ≤ (N : ℚ)) : bankerRound x ≤ N := by
  have h1 : ⌊x⌋ ≤ N := by
    have := Int.floor_le_floor h
    rwa [Int.floor_intCast] at this
  have hfx : (⌊x⌋ : ℚ) ≤ x := Int.floor_le x
  simp only [bankerRound]
  split_ifs with hA hB hC
  · exact h1
  · have hlt : (⌊x⌋ : ℚ) < (N : ℚ) := by linarith
    have : ⌊x⌋ < N := by exact_mod_cast hlt
    omega
  · exact h1
  · have hge : (1:ℚ)/2 ≤ x - (⌊x⌋ : ℚ) := le_of_not_lt hA
    have hlt : (⌊x⌋ : ℚ) < (N : ℚ) := by linarith
    have : ⌊x⌋ < N := by exact_mod_cast hlt
    omega

lemma pyRound1_nonneg (q : ℚ) (h : 0 ≤ q) : 0 ≤ pyRound1 q := by
  unfold pyRound1
  have hb : (0:ℤ) ≤ bankerRound (q * 10) := bankerRound_nonneg _ (by linarith)
  have : (0:ℚ) ≤ (bankerRound (q * 10) : ℚ) := by exact_mod_cast hb
  positivity

lemma pyRound1_le_100 (q : ℚ) (h : q ≤ 100) : pyRound1 q ≤ 100 := by
  have hb : bankerRound (q * 10) ≤ (1000 : ℤ) := bankerRound_le _ _ (by push_cast; linarith)
  have hbq : (bankerRound (q * 10) : ℚ) ≤ 1000 := by exact_mod_cast hb
  unfold pyRound1
  rw [div_le_iff₀ (by norm_num : (0:ℚ) < 10)]
  linarith

lemma wmp_nonneg (userSet : List String) (rows reqRows : List SkillRow)
    (hw : ∀ r ∈ rows, 0 ≤ r.weight) :
    0 ≤ (calculateWeightedMatching userSet rows reqRows).weighted_match_percentage := by
  simp only [calculateWeightedMatching]
  split_ifs with hpos
  · refine mul_nonneg (div_nonneg ?_ (le_of_lt hpos)) (by norm_num)
    refine List.sum_nonneg ?_
    intro x hx
    rw [List.mem_map] at hx
    obtain ⟨r, hr, rfl⟩ := hx
    exact mul_nonneg (hw r (List.mem_filter.mp hr).1) (by norm_num)
  · exact le_refl 0

lemma rmp_nonneg (userSet : List String) (rows reqRows : List SkillRow) :
    0 ≤ (calculateWeightedMatching userSet rows reqRows).required_match_percentage := by
  simp only [calculateWeightedMatching]
  split_ifs with hpos
  · positivity
  · exact le_refl 0

lemma smBonus_nonneg (wa : WeightedAnalysis) (sem : ℚ) : 0 ≤ smBonus wa sem := by
  unfold smBonus smComplementaryBonus
  split_ifs <;> norm_num

lemma smBase_nonneg (wa : WeightedAnalysis) (sem : ℚ)
    (h1 : 0 ≤ wa.weighted_match_percentage) (h2 : 0 ≤ wa.required_match_percentage)
    (hs : 0 ≤ sem) : 0 ≤ smBase wa sem := by
  unfold smBase
  have a1 : 0 ≤ wa.weighted_match_percentage * 0.6 := by positivity
  have a2 : 0 ≤ wa.required_match_percentage * 0.25 := by positivity
  have a3 : 0 ≤ sem * 100 * 0.15 := by positivity
  linarith

lemma applySafetyCaps_nonneg (t : ℕ) (rmp f : ℚ) (h : 0 ≤ f) :
    0 ≤ applySafetyCaps t rmp f := by
  simp only [applySafetyCaps]
  split_ifs <;> (repeat' apply le_min) <;> first | exact h | norm_num

lemma applySafetyCaps_le_self (t : ℕ) (rmp f : ℚ) : applySafetyCaps t rmp f ≤ f := by
  simp only [applySafetyCaps]
  split_ifs <;> simp [min_le_iff, le_refl]

lemma mkMatchEntry_bounds (career : String) (rows : List SkillRow) (sem : ℚ)
    (userSet : List String) (hw : ∀ r ∈ rows, 0 ≤ r.weight) (hs : 0 ≤ sem) :
    0 ≤ (mkMatchEntry career rows sem userSet).match_percentage ∧
      (mkMatchEntry career rows sem userSet).match_percentage ≤ 100 := by
  have hwmp := wmp_nonneg userSet rows (rows.filter (fun r => r.is_required)) hw
  have hrmp := rmp_nonneg userSet rows (rows.filter (fun r => r.is_required))
  have hbase := smBase_nonneg (calculateWeightedMatching userSet rows
    (rows.filter (fun r => r.is_required))) sem hwmp hrmp hs
  have hbonus := smBonus_nonneg (calculateWeightedMatching userSet rows
    (rows.filter (fun r => r.is_required))) sem
  have hpre0 : 0 ≤ smPreCap (calculateWeightedMatching userSet rows
      (rows.filter (fun r => r.is_required))) sem :=
    le_min (by norm_num) (by linarith)
  have hpre100 : smPreCap (calculateWeightedMatching userSet rows
      (rows.filter (fun r => r.is_required))) sem ≤ 100 := min_le_left _ _
  have hf0 : 0 ≤ smFinal (calculateWeightedMatching userSet rows
      (rows.filter (fun r => r.is_required))) sem rows.length :=
    applySafetyCaps_nonneg _ _ _ hpre0
  have hf100 : smFinal (calculateWeightedMatching userSet rows
      (rows.filter (fun r => r.is_required))) sem rows.length ≤ 100 :=
    le_trans (applySafetyCaps_le_self _ _ _) hpre100
  exact ⟨pyRound1_nonneg _ hf0, pyRound1_le_100 _ hf100⟩

/- ===================== C1 ===================== -/

/-- C1: every `match_percentage` returned by `skill_matching` lies in
[0, 100], for any user skill list and any catalog with nonnegative weights
and a nonnegative semantic-similarity signal (cosine similarity of
nonnegative TF-IDF vectors is nonnegative). -/
theorem skill_matching_match_percentage_bounds (catalog : List CatalogRow)
    (sem : String → ℚ) (userSkills : List String) (topN : ℕ)
    (hw : ∀ r ∈ catalog, 0 ≤ r.req.weight) (hs : ∀ c, 0 ≤ sem c) :
    ∀ e ∈ skillMatching catalog sem userSkills topN,
      0 ≤ e.match_percentage ∧ e.match_percentage ≤ 100 := by
  intro e he
  simp only [skillMatching] at he
  split_ifs at he with hempty
  · simp at he
  · have he1 := List.mem_of_mem_take he
    rw [List.mem_mergeSort, List.mem_filterMap] at he1
    obtain ⟨c, -, hc⟩ := he1
    by_cases hrows : (List.map (fun r => r.req)
        (List.filter (fun r => r.career == c) catalog)).isEmpty
    · rw [if_pos hrows] at hc
      cases hc
    · rw [if_neg hrows] at hc
      obtain rfl := Option.some.inj hc
      refine mkMatchEntry_bounds _ _ _ _ ?_ (hs c)
      intro r hr
      rw [List.mem_map] at hr
      obtain ⟨cr, hcr, rfl⟩ := hr
      exact hw cr (List.mem_filter.mp hcr).1

/-- The one-career catalog used to exercise C1. -/
def catC1 : List CatalogRow :=
  [⟨"Data Scientist", ⟨"Python", "Intermediate", 9, true, "core", 1⟩⟩]

/-- C1 witness: the bound theorem applied to a concrete catalog, skill list
and semantic-similarity signal. -/
theorem skill_matching_match_percentage_bounds_witness :
    List.Forall (fun e => 0 ≤ e.match_percentage ∧ e.match_percentage ≤ 100)
      (skillMatching catC1 (fun _ => 0) ["Python"] 5) :=
  List.forall_iff_forall_mem.mpr
    (skill_matching_match_percentage_bounds catC1 (fun _ => 0) ["Python"] 5
      (by decide) (fun _ => le_refl 0))

/- ===================== gap-analysis fusion lemmas ===================== -/

lemma userHas_req_length (reqs : List SkillRow) (m : List (String × ParsedSkill)) :
    ((reqs.filterMap (gapEntry m)).filter (fun e => e.is_required)).length
      = (reqs.filter (fun r =>
          r.is_required && (mappingLookup m (strLower r.skill)).isSome)).length := by
  induction reqs with
  | nil => rfl
  | cons r rest ih =>
    cases hl : mappingLookup m (strLower r.skill) with
    | none =>
      have hg : gapEntry m r = none := by simp [gapEntry, hl]
      simp [List.filterMap_cons, hg, hl, List.filter_cons, ih]
    | some info =>
      have hg : gapEntry m r =
          some (UserHasEntry.mk r.skill info.level r.importance r.is_required r.category) := by
        simp [gapEntry, hl]
      by_cases hreq : r.is_required
      · simp [List.filterMap_cons, hg, hl, List.filter_cons, hreq, ih]
      · simp [List.filterMap_cons, hg, hl, List.filter_cons, hreq, ih]

lemma userHas_req_importance (reqs : List SkillRow) (m : List (String × ParsedSkill)) :
    (((reqs.filterMap (gapEntry m)).filter (fun e => e.is_required)).map
        (fun e => e.importance)).sum
      = ((reqs.filter (fun r =>
          r.is_required && (mappingLookup m (strLower r.skill)).isSome)).map
        (fun r => r.importance)).sum := by
  induction reqs with
  | nil => rfl
  | cons r rest ih =>
    cases hl : mappingLookup m (strLower r.skill) with
    | none =>
      have hg : gapEntry m r = none := by simp [gapEntry, hl]
      simp [List.filterMap_cons, hg, hl, List.filter_cons, ih]
    | some info =>
      have hg : gapEntry m r =
          some (UserHasEntry.mk r.skill info.level r.importance r.is_required r.category) := by
        simp [gapEntry, hl]
      by_cases hreq : r.is_required
      · simp [List.filterMap_cons, hg, hl, List.filter_cons, hreq, ih]
      · simp [List.filterMap_cons, hg, hl, List.filter_cons, hreq, ih]

lemma userHas_req_le_total (reqs : List SkillRow) (m : List (String × ParsedSkill)) :
    ((reqs.filterMap (gapEntry m)).filter (fun e => e.is_required)).length
      ≤ (reqs.filter (fun r => r.is_required)).length := by
  rw [userHas_req_length]
  refine List.Sublist.length_le (List.monotone_filter_right _ ?_)
  intro a ha
  exact (Bool.and_elim_left ha)

lemma gapCore_counts (target : String) (reqs : List SkillRow) (parsed : List ParsedSkill) :
    ((gapAnalysisCore target reqs parsed).required_covered : ℤ)
        + (gapAnalysisCore target reqs parsed).required_missing_count
      = ((gapAnalysisCore target reqs parsed).total_required : ℤ)
    ∧ 0 ≤ (gapAnalysisCore target reqs parsed).required_missing_count
    ∧ 0 ≤ (gapAnalysisCore target reqs parsed).optional_missing_count := by
  refine ⟨?_, le_max_left _ _, le_max_left _ _⟩
  simp only [gapAnalysisCore]
  have hle := userHas_req_le_total reqs (skillMappingOf parsed)
  have h0 : (0:ℤ) ≤ ((reqs.filter (fun r => r.is_required)).length : ℤ)
      - (((reqs.filterMap (gapEntry (skillMappingOf parsed))).filter
          (fun e => e.is_required)).length : ℤ) := by
    rw [sub_nonneg]
    exact_mod_cast hle
  rw [max_eq_right h0]
  ring

/- ===================== C5 ===================== -/

/-- C5: for every gap analysis on a career present in the catalog,
required_covered + required_missing_count = total_required, and the clamped
missing counts are nonnegative (the covered/total counts are natural
numbers, hence nonnegative by construction). -/
theorem gap_counts_invariant (catalog : List CatalogRow) (target : String)
    (input : String ⊕ List String) (r : GapResult)
    (h : gapAnalysis catalog target input = Except.ok r) :
    (r.required_covered : ℤ) + r.required_missing_count = (r.total_required : ℤ)
    ∧ 0 ≤ r.required_missing_count ∧ 0 ≤ r.optional_missing_count := by
  rw [gapAnalysis] at h
  split_ifs at h with hmem
  obtain rfl := Except.ok.inj h
  exact gapCore_counts _ _ _

/-- The two-career catalog used to exercise C5. -/
def catC5 : List CatalogRow := [
  ⟨"Data Scientist", ⟨"Python", "Intermediate", 9, true, "core", 1⟩⟩,
  ⟨"Data Scientist", ⟨"SQL", "Intermediate", 8, false, "core", 1⟩⟩]

/-- C5 witness: the invariant instantiated on a concrete catalog and user
skill list, with the success hypothesis discharged definitionally. -/
theorem gap_counts_invariant_witness :
    ((gapAnalysisCore "Data Scientist" (careerReqsFor catC5 "Data Scientist")
        (parsedSkillsOfInput (Sum.inr ["Python"]))).required_covered : ℤ)
      + (gapAnalysisCore "Data Scientist" (careerReqsFor catC5 "Data Scientist")
        (parsedSkillsOfInput (Sum.inr ["Python"]))).required_missing_count
      = ((gapAnalysisCore "Data Scientist" (careerReqsFor catC5 "Data Scientist")
        (parsedSkillsOfInput (Sum.inr ["Python"]))).total_required : ℤ)
    ∧ 0 ≤ (gapAnalysisCore "Data Scientist" (careerReqsFor catC5 "Data Scientist")
        (parsedSkillsOfInput (Sum.inr ["Python"]))).required_missing_count
    ∧ 0 ≤ (gapAnalysisCore "Data Scientist" (careerReqsFor catC5 "Data Scientist")
        (parsedSkillsOfInput (Sum.inr ["Python"]))).optional_missing_count :=
  gap_counts_invariant catC5 "Data Scientist" (Sum.inr ["Python"]) _ rfl

/- ===================== C6 ===================== -/

/-- C6: when the analyzed required-importance sum is positive, the reported
completion_percentage is the one-decimal rounding of (matched required
importance sum / total required importance sum × 100), while
required_completion is the rounding of (matched required count / total
required count × 100). -/
theorem gap_completion_importance_weighted (catalog : List CatalogRow) (target : String)
    (input : String ⊕ List String) (r : GapResult)
    (h : gapAnalysis catalog target input = Except.ok r)
    (hpos : 0 < (((careerReqsFor catalog target).filter (fun x => x.is_required)).map
        (fun x => x.importance)).sum) :
    r.completion_percentage = pyRound1 (
        (((careerReqsFor catalog target).filter
            (fun x => x.is_required && gapMatched input x)).map (fun x => x.importance)).sum
        / (((careerReqsFor catalog target).filter (fun x => x.is_required)).map
            (fun x => x.importance)).sum * 100)
    ∧ r.required_completion = pyRound1 (
        ((((careerReqsFor catalog target).filter
            (fun x => x.is_required && gapMatched input x)).length : ℚ))
        / (((careerReqsFor catalog target).filter (fun x => x.is_required)).length : ℚ)
        * 100) := by
  rw [gapAnalysis] at h
  split_ifs at h with hmem
  obtain rfl := Except.ok.inj h
  have hlenpos : 0 < ((careerReqsFor catalog target).filter (fun x => x.is_required)).length := by
    rcases List.eq_nil_or_concat ((careerReqsFor catalog target).filter (fun x => x.is_required))
      with hnil | ⟨_, _, hcc⟩
    · rw [hnil] at hpos; simp at hpos
    · rw [hcc]; simp
  constructor
  · show pyRound1 _ = _
    rw [if_pos hpos, userHas_req_importance]
    rfl
  · show pyRound1 _ = _
    rw [if_pos hlenpos, userHas_req_length]
    rfl

/-- The catalog used to exercise C6: target "Analyst X" picks up the default
soft-skill table (importances 8, 9, 7, 6, 8 of which 8 + 9 + 8 required),
so the required importances are 6, 5, 9, 8, 9, 8 summing to 45, of which
the matched ones sum to 36. -/
def catC6 : List CatalogRow := [
  ⟨"Analyst X", ⟨"Python", "Intermediate", 6, true, "core", 1⟩⟩,
  ⟨"Analyst X", ⟨"SQL", "Intermediate", 5, true, "core", 1⟩⟩,
  ⟨"Analyst X", ⟨"R", "Intermediate", 9, true, "core", 1⟩⟩]

/-- C6 witness: matched-required importance 36 over total 45 gives a
reported completion percentage of exactly 80. -/
theorem gap_completion_importance_weighted_witness :
    0 < (((careerReqsFor catC6 "Analyst X").filter (fun x => x.is_required)).map
        (fun x => x.importance)).sum
    ∧ (gapAnalysisCore "Analyst X" (careerReqsFor catC6 "Analyst X")
        (parsedSkillsOfInput (Sum.inr
          ["Python", "SQL", "Communication", "Problem Solving", "Critical Thinking"]))).completion_percentage
      = 80 := by
  have ht : ((careerReqsFor catC6 "Analyst X").filter (fun x => x.is_required)).map
      (fun x => x.importance) = [6, 5, 9, 8, 9, 8] := by decide
  have hpos : 0 < (((careerReqsFor catC6 "Analyst X").filter (fun x => x.is_required)).map
      (fun x => x.importance)).sum := by
    rw [ht]; norm_num
  refine ⟨hpos, ?_⟩
  have h := (gap_completion_importance_weighted catC6 "Analyst X"
    (Sum.inr ["Python", "SQL", "Communication", "Problem Solving", "Critical Thinking"])
    _ rfl hpos).1
  rw [h]
  have hm : ((careerReqsFor catC6 "Analyst X").filter (fun x => x.is_required &&
      gapMatched (Sum.inr
        ["Python", "SQL", "Communication", "Problem Solving", "Critical Thinking"]) x)).map
      (fun x => x.importance) = [6, 5, 8, 9, 8] := by decide
  rw [hm, ht]
  norm_num [pyRound1, bankerRound]

/- ===================== C7 ===================== -/

/-- The one-requirement catalog used for C7: SQL with catalog difficulty
"Advanced". -/
def catC7 : List CatalogRow :=
  [⟨"Data Scientist", ⟨"SQL", "Advanced", 9, true, "core", 1⟩⟩]

/-- C7 counterexample: when `skills=["SQL - Intermediate"]` is passed as a
Python LIST, `gap_analysis` takes the list branch, which never calls
`_parse_user_skills`: the raw token "SQL - Intermediate" gets the default
level "Beginner", has no synonyms, and fails to match the SQL requirement
at all — `user_has` is empty, so no entry reports "Intermediate". -/
theorem gap_list_input_level_not_reported :
    (gapAnalysis catC7 "Data Scientist"
        (Sum.inr ["SQL - Intermediate"])).toOption.map (fun r => r.user_has)
      = some [] := by
  rfl

/-- C7 (amended): the proficiency override holds on the STRING input path:
when the raw string "SQL - Intermediate" is parsed by `_parse_user_skills`,
every requirement it matches is reported in `user_has` with the
user-declared difficulty "Intermediate" (overriding any catalog
difficulty). -/
theorem gap_string_input_level_override (target : String) (reqs : List SkillRow) :
    ∀ e ∈ (gapAnalysisCore target reqs
        (parsedSkillsOfInput (Sum.inl "SQL - Intermediate"))).user_has,
      e.difficulty = "Intermediate" := by
  have hp : parsedSkillsOfInput (Sum.inl "SQL - Intermediate") =
      [ParsedSkill.mk "SQL" "Intermediate"] := by decide
  rw [hp]
  intro e he
  simp only [gapAnalysisCore] at he
  rw [List.mem_filterMap] at he
  obtain ⟨r, -, hr⟩ := he
  rw [gapEntry] at hr
  cases hl : mappingLookup (skillMappingOf [ParsedSkill.mk "SQL" "Intermediate"])
      (strLower r.skill) with
  | none => rw [hl] at hr; cases hr
  | some info =>
    rw [hl] at hr
    rw [Option.map_some'] at hr
    obtain rfl := Option.some.inj hr
    show info.level = "Intermediate"
    have hinfo : info = ParsedSkill.mk "SQL" "Intermediate" := by
      have hfind : ∃ p, (skillMappingOf [ParsedSkill.mk "SQL" "Intermediate"]).reverse.find?
          (fun x => x.1 == strLower r.skill) = some p ∧ p.2 = info := by
        rw [mappingLookup] at hl
        cases hf : (skillMappingOf [ParsedSkill.mk "SQL" "Intermediate"]).reverse.find?
            (fun x => x.1 == strLower r.skill) with
        | none => rw [hf] at hl; cases hl
        | some p => rw [hf, Option.map_some'] at hl; exact ⟨p, rfl, Option.some.inj hl⟩
      obtain ⟨p, hfp, hp2⟩ := hfind
      have hmem := List.mem_of_find?_eq_some hfp
      rw [List.mem_reverse] at hmem
      simp only [skillMappingOf, List.flatMap_cons, List.flatMap_nil, List.append_nil,
        List.mem_map] at hmem
      obtain ⟨syn, -, hsyn⟩ := hmem
      rw [← hp2, ← hsyn]
    rw [hinfo]

/-- C7 witness: on the concrete catalog, the string input does produce a
`user_has` entry for SQL with difficulty "Intermediate" despite the catalog
difficulty "Advanced". -/
theorem gap_string_input_level_override_witness :
    (UserHasEntry.mk "SQL" "Intermediate" 9 true "core").difficulty = "Intermediate" :=
  gap_string_input_level_override "Data Scientist" (careerReqsFor catC7 "Data Scientist")
    (UserHasEntry.mk "SQL" "Intermediate" 9 true "core") (by decide)

/- ===================== C8 ===================== -/

lemma gapCore_empty_userHas (target : String) (reqs : List SkillRow) :
    (gapAnalysisCore target reqs []).user_has = [] := by
  simp only [gapAnalysisCore]
  refine List.filterMap_eq_nil_iff.mpr ?_
  intro r _
  simp [gapEntry, skillMappingOf, mappingLookup]

/-- The one-career catalog used for C8. -/
def catC8 : List CatalogRow :=
  [⟨"Data Scientist", ⟨"Python", "Intermediate", 9, true, "core", 1⟩⟩]

/-- C8 counterexample: with an empty skills list, `skill_matching` returns a
plain empty list (no tagged error value), and `gap_analysis` returns a
SUCCESSFUL full analysis (zero skills covered), not an EmptyInput error:
neither function surfaces a tagged EmptyInput error result. -/
theorem empty_skills_not_tagged_error :
    skillMatching catC8 (fun _ => 0) [] 5 = []
    ∧ (gapAnalysis catC8 "Data Scientist" (Sum.inr [])).toOption.map
        (fun r => (r.skills_covered, r.user_has)) = some (0, []) :=
  ⟨rfl, rfl⟩

/-- C8 (amended): with an empty skills list, `skill_matching` returns the
empty match list without touching the catalog, and `gap_analysis` (for a
career present in the catalog) performs the normal analysis against an
empty matched set, returning a success result with empty `user_has` and
zero `skills_covered` — no exception and no partial per-career data, but
also no tagged EmptyInput error. -/
theorem empty_skills_results (catalog : List CatalogRow) (sem : String → ℚ)
    (topN : ℕ) (target : String) :
    skillMatching catalog sem [] topN = []
    ∧ ((catalog.map (fun r => r.career)).contains target = true →
        gapAnalysis catalog target (Sum.inr []) =
          Except.ok (gapAnalysisCore target (careerReqsFor catalog target) [])
        ∧ (gapAnalysisCore target (careerReqsFor catalog target) []).user_has = []
        ∧ (gapAnalysisCore target (careerReqsFor catalog target) []).skills_covered = 0) := by
  constructor
  · rfl
  · intro hmem
    refine ⟨?_, gapCore_empty_userHas _ _, ?_⟩
    · rw [gapAnalysis, if_pos hmem]
      rfl
    · show ((gapAnalysisCore target (careerReqsFor catalog target) []).user_has).length = 0
      rw [gapCore_empty_userHas]
      rfl

/-- C8 witness: the amended statement applied to a concrete catalog, with
the career-present hypothesis discharged by evaluation. -/
theorem empty_skills_results_witness :
    gapAnalysis catC8 "Data Scientist" (Sum.inr []) =
      Except.ok (gapAnalysisCore "Data Scientist" (careerReqsFor catC8 "Data Scientist") [])
    ∧ (gapAnalysisCore "Data Scientist" (careerReqsFor catC8 "Data Scientist") []).user_has = []
    ∧ (gapAnalysisCore "Data Scientist" (careerReqsFor catC8 "Data Scientist") []).skills_covered
      = 0 :=
  (empty_skills_results catC8 (fun _ => 0) 5 "Data Scientist").2 (by decide)

/- ===================== C9 ===================== -/

lemma peerLoop_spec (used : List (ℤ × String × ℤ)) (draws : ℕ → PeerCand) :
    ∀ fuel a, a + fuel = 50 →
      peerLoop used draws a =
        match (List.range' a fuel).find?
            (fun k => !(used.contains (peerKey (draws k)))) with
        | some k => (draws k, true)
        | none => (draws 49, false) := by
  intro fuel
  induction fuel with
  | zero =>
    intro a ha
    rw [peerLoop]
    rw [if_neg (by omega : ¬ a < 50)]
    simp [List.range']
  | succ n ih =>
    intro a ha
    rw [peerLoop]
    rw [if_pos (by omega : a < 50)]
    rw [List.range'_succ, List.find?_cons]
    cases hdup : used.contains (peerKey (draws a)) with
    | true =>
      simp only [hdup, Bool.not_true]
      rw [if_true]
      exact ih (a + 1) (by omega)
    | false =>
      simp only [hdup, Bool.not_false]
      rw [if_neg (by simp)]

lemma peerGroup_foldl_length (profile : CareerGenProfile) (draws : ℕ → ℕ → PeerCand)
    (coins : ℕ → ℕ → ℚ) :
    ∀ (l : List ℕ) (st : List (ℤ × String × ℤ) × List PeerRec),
      ((l.foldl (peerGroupStep profile draws coins) st).2).length = st.2.length + l.length := by
  intro l
  induction l with
  | nil => intro st; simp
  | cons i rest ih =>
    intro st
    rw [List.foldl_cons, ih]
    simp [peerGroupStep]
    omega

/-- C9: the peer-deduplication retry loop performs at most 50 attempts and
terminates unconditionally: it returns the first of the 50 drawn candidates
whose (experience, education, salary // 5000) key is fresh, and when all 50
draws are near-duplicates it accepts the candidate of the final attempt; the
generator always returns exactly `sampleSize` peer records. -/
theorem peer_retry_loop_bounded_terminates (used : List (ℤ × String × ℤ))
    (draws : ℕ → PeerCand) (profile : CareerGenProfile) (drawsG : ℕ → ℕ → PeerCand)
    (coins : ℕ → ℕ → ℚ) (sampleSize : ℕ) :
    peerLoop used draws 0 =
      (match (List.range 50).find? (fun k => !(used.contains (peerKey (draws k)))) with
       | some k => (draws k, true)
       | none => (draws 49, false))
    ∧ (generatePeerGroup profile drawsG coins sampleSize).length = sampleSize := by
  constructor
  · have h := peerLoop_spec used draws 50 0 rfl
    rwa [← List.range_eq_range'] at h
  · rw [generatePeerGroup, peerGroup_foldl_length]
    simp

/- ===================== C10 ===================== -/

/-- C10: the requirement set analyzed by `gap_analysis` is the catalog rows
of the target career concatenated with its fixed per-career soft-skill
table (the five-entry default table for careers without a specific
mapping): total_skills_needed, total_required and the required-importance
sum are all computed over this augmented set. -/
theorem gap_requirements_include_soft_skills (catalog : List CatalogRow) (target : String)
    (input : String ⊕ List String) (r : GapResult)
    (h : gapAnalysis catalog target input = Except.ok r) :
    r.total_skills_needed
        = (catalog.filter (fun x => x.career == target)).length
          + (softSkillsForCareer target).length
    ∧ r.total_required
        = ((careerReqsFor catalog target).filter (fun x => x.is_required)).length
    ∧ r.total_required_importance
        = (((careerReqsFor catalog target).filter (fun x => x.is_required)).map
            (fun x => x.importance)).sum
    ∧ (List.lookup target softSkillsMapping = none →
        softSkillsForCareer target = defaultSoftSkills)
    ∧ defaultSoftSkills.length = 5 := by
  rw [gapAnalysis] at h
  split_ifs at h with hmem
  obtain rfl := Except.ok.inj h
  refine ⟨?_, rfl, rfl, ?_, rfl⟩
  · show (careerReqsFor catalog target).length = _
    rw [careerReqsFor, List.length_append, List.length_map]
  · intro hnone
    rw [softSkillsForCareer, hnone]

/-- The catalog used to exercise C10: "QA Engineer" has no specific
soft-skill mapping, so the default five-entry table is appended. -/
def catC10 : List CatalogRow :=
  [⟨"QA Engineer", ⟨"Selenium", "Intermediate", 9, true, "supporting", (0.4 : ℚ)⟩⟩]

/-- C10 witness: the augmentation facts instantiated on a concrete catalog,
with the success hypothesis discharged definitionally. -/
theorem gap_requirements_include_soft_skills_witness :
    (gapAnalysisCore "QA Engineer" (careerReqsFor catC10 "QA Engineer")
        (parsedSkillsOfInput (Sum.inr ["Selenium"]))).total_skills_needed
        = (catC10.filter (fun x => x.career == "QA Engineer")).length
          + (softSkillsForCareer "QA Engineer").length
    ∧ (gapAnalysisCore "QA Engineer" (careerReqsFor catC10 "QA Engineer")
        (parsedSkillsOfInput (Sum.inr ["Selenium"]))).total_required
        = ((careerReqsFor catC10 "QA Engineer").filter (fun x => x.is_required)).length
    ∧ (gapAnalysisCore "QA Engineer" (careerReqsFor catC10 "QA Engineer")
        (parsedSkillsOfInput (Sum.inr ["Selenium"]))).total_required_importance
        = (((careerReqsFor catC10 "QA Engineer").filter (fun x => x.is_required)).map
            (fun x => x.importance)).sum
    ∧ (List.lookup "QA Engineer" softSkillsMapping = none →
        softSkillsForCareer "QA Engineer" = defaultSoftSkills)
    ∧ defaultSoftSkills.length = 5 :=
  gap_requirements_include_soft_skills catC10 "QA Engineer" (Sum.inr ["Selenium"]) _ rfl
